import Mathlib

/-!
Shallow embedding of the Cumulus collator pipeline (src/collator/src/lib.rs).

The pipeline under verification: `produce_candidate` decodes the parent head
from the validation data, gates on the local block status
(`check_block_status`), assembles the inherent data (`inherent_data`), drives
the proposer, imports the produced block, and extracts the collation outputs
from the post-execution state (`build_collation`).

External collaborators (block-status backend, inherent-data providers,
downward-message retrieval, proposer, block importer, state backend, hashing)
are modelled as fields of a `CollatorEnv` record.  Byte strings are modelled
as `List Nat`; SCALE encoding of the concrete generic parameters is modelled
by an executable length-prefixed codec with proved decode/encode roundtrips.
`produce_candidate` additionally returns the trace of block-import attempts
and of successful imports so that claims about "no import occurs" and about
local chain state after the run are statable.
-/

namespace Cumulus

/-- Byte strings (`Vec<u8>` in the source) are modelled as lists of naturals. -/
abbrev Bytes : Type := List Nat

/-- Parachain block hashes (`Block::Hash`). -/
abbrev Hash : Type := Nat

/-- Relay-chain block hashes (`polkadot_primitives::v1::Hash`). -/
abbrev PHash : Type := Nat

/-- The parachain block header (the concrete instance of the generic
`Block::Header`): declared parent hash and block number. -/
structure Header where
  parentHash : Nat
  number : Nat
deriving DecidableEq, Repr

/-- SCALE encoding of a header for the concrete header type. -/
def encodeHeader (h : Header) : Bytes :=
  [h.parentHash, h.number]

/-- Consuming decoder for a header: reads the two fields, returns the rest. -/
def decodeHeaderCons : Bytes → Option (Header × Bytes)
  | p :: n :: rest => some (⟨p, n⟩, rest)
  | _ => none

/-- `Block::Header::decode`: decodes a prefix of the input, ignoring
trailing bytes (as SCALE decoding does). -/
def decodeHeader (b : Bytes) : Option Header :=
  (decodeHeaderCons b).map (fun x => x.1)

/-- Length-prefixed encoding of one byte string. -/
def encodeBytes (b : Bytes) : Bytes :=
  List.length b :: b

/-- Consuming decoder for one length-prefixed byte string. -/
def decodeBytesCons : Bytes → Option (Bytes × Bytes)
  | [] => none
  | l :: rest =>
      if l ≤ List.length rest then some (List.take l rest, List.drop l rest) else none

/-- Consuming decoder for `n` consecutive length-prefixed byte strings. -/
def decodeBytesN : Nat → Bytes → Option (List Bytes × Bytes)
  | 0, rest => some ([], rest)
  | n + 1, rest =>
      match decodeBytesCons rest with
      | none => none
      | some (b, rest1) =>
          match decodeBytesN n rest1 with
          | none => none
          | some (bs, rest2) => some (b :: bs, rest2)

/-- Encoding of a list of byte strings: count followed by each entry. -/
def encodeListBytes (xs : List Bytes) : Bytes :=
  List.length xs :: List.foldr (fun b acc => encodeBytes b ++ acc) [] xs

/-- Consuming decoder for a list of byte strings. -/
def decodeListBytesCons : Bytes → Option (List Bytes × Bytes)
  | [] => none
  | n :: rest => decodeBytesN n rest

theorem decodeBytesCons_encode (b rest : Bytes) :
    decodeBytesCons (encodeBytes b ++ rest) = some (b, rest) := by
  show decodeBytesCons (List.length b :: (b ++ rest)) = some (b, rest)
  simp only [decodeBytesCons]
  have hlen : List.length b ≤ List.length (b ++ rest) := by
    simp [List.length_append]
  rw [if_pos hlen, List.take_left, List.drop_left]

theorem decodeBytesN_encode (xs : List Bytes) (rest : Bytes) :
    decodeBytesN (List.length xs) (List.foldr (fun b acc => encodeBytes b ++ acc) [] xs ++ rest) =
      some (xs, rest) := by
  induction xs generalizing rest with
  | nil => simp [decodeBytesN]
  | cons x xs ih =>
      show decodeBytesN (List.length xs + 1)
        ((encodeBytes x ++ List.foldr (fun b acc => encodeBytes b ++ acc) [] xs) ++ rest) = _
      rw [List.append_assoc]
      unfold decodeBytesN
      rw [decodeBytesCons_encode]
      simp [ih]

theorem decodeListBytesCons_encode (xs : List Bytes) (rest : Bytes) :
    decodeListBytesCons (encodeListBytes xs ++ rest) = some (xs, rest) := by
  unfold encodeListBytes
  show decodeListBytesCons
    (List.length xs :: (List.foldr (fun b acc => encodeBytes b ++ acc) [] xs ++ rest)) = _
  unfold decodeListBytesCons
  exact decodeBytesN_encode xs rest

theorem decodeHeaderCons_encode (h : Header) (rest : Bytes) :
    decodeHeaderCons (encodeHeader h ++ rest) = some (h, rest) := rfl

/-- The `ParachainBlockData` wrapper (`cumulus_runtime::ParachainBlockData`):
header, extrinsics and the storage proof produced by the proposer. -/
structure ParachainBlockData where
  header : Header
  extrinsics : List Bytes
  storage_proof : List Bytes
deriving DecidableEq, Repr

/-- SCALE encoding of `ParachainBlockData` (`block.encode()`). -/
def encodeParachainBlockData (b : ParachainBlockData) : Bytes :=
  encodeHeader b.header ++ encodeListBytes b.extrinsics ++ encodeListBytes b.storage_proof

/-- Decoder for `ParachainBlockData`, ignoring trailing bytes. -/
def decodeParachainBlockData (bs : Bytes) : Option ParachainBlockData :=
  match decodeHeaderCons bs with
  | none => none
  | some (h, r1) =>
      match decodeListBytesCons r1 with
      | none => none
      | some (exts, r2) =>
          match decodeListBytesCons r2 with
          | none => none
          | some (proof, _) => some ⟨h, exts, proof⟩

theorem decodeParachainBlockData_encode (b : ParachainBlockData) :
    decodeParachainBlockData (encodeParachainBlockData b) = some b := by
  have h2 : decodeListBytesCons (encodeListBytes b.storage_proof) = some (b.storage_proof, []) := by
    simpa using decodeListBytesCons_encode b.storage_proof []
  unfold encodeParachainBlockData decodeParachainBlockData
  rw [List.append_assoc, decodeHeaderCons_encode]
  simp [decodeListBytesCons_encode, h2]

/-- Local block status (`sp_consensus::BlockStatus`). -/
inductive BlockStatus where
  | Queued
  | InChainWithState
  | InChainPruned
  | KnownBad
  | Unknown
deriving DecidableEq, Repr

/-- Block origin of an import request (`sp_consensus::BlockOrigin`;
`produce_candidate` always uses `Own`). -/
inductive BlockOrigin where
  | Own
  | NetworkBroadcast
deriving DecidableEq, Repr

/-- Fork-choice directive of an import request
(`sp_consensus::ForkChoiceStrategy`). -/
inductive ForkChoiceStrategy where
  | LongestChain
  | Custom (isNewBest : Bool)
deriving DecidableEq, Repr

/-- Persisted validation data supplied by the relay chain
(`validation_data.persisted`): the encoded parent head and the
relay-chain-relative block number. -/
structure PersistedValidationData where
  parent_head : Bytes
  block_number : Nat
deriving DecidableEq, Repr

/-- The per-request validation data (`cumulus_primitives::ValidationData`). -/
structure ValidationData where
  persisted : PersistedValidationData
deriving DecidableEq, Repr

/-- Opaque encoding of the validation data, as `put_data` SCALE-encodes its
argument before storing it in the inherent data. -/
def encodeValidationData (vd : ValidationData) : Bytes :=
  vd.persisted.block_number :: vd.persisted.parent_head

/-- Downward messages are opaque byte blobs here
(`cumulus_primitives::inherents::DownwardMessagesType`). -/
def encodeDownwardMessages (msgs : List Bytes) : Bytes :=
  encodeListBytes msgs

/-- Inherent-data identifier of the validation-data entry
(`VALIDATION_DATA_IDENTIFIER`). -/
def VALIDATION_DATA_IDENTIFIER : Nat := 0

/-- Inherent-data identifier of the downward-messages entry
(`DOWNWARD_MESSAGES_IDENTIFIER`). -/
def DOWNWARD_MESSAGES_IDENTIFIER : Nat := 1

/-- Inherent data (`sp_inherents::InherentData`): a map from inherent
identifier to encoded payload, modelled as an association list. -/
abbrev InherentData : Type := List (Nat × Bytes)

/-- `InherentData::put_data`: fails (returns `none`) when an entry with the
same identifier already exists, otherwise inserts the encoded payload. -/
def put_data (d : InherentData) (identifier : Nat) (payload : Bytes) : Option InherentData :=
  match d.lookup identifier with
  | some _ => none
  | none => some ((identifier, payload) :: d)

/-- Well-known storage key of the upward-messages entry
(`well_known_keys::UPWARD_MESSAGES`). -/
def UPWARD_MESSAGES : Nat := 0

/-- Well-known storage key of the new-validation-code entry
(`well_known_keys::NEW_VALIDATION_CODE`). -/
def NEW_VALIDATION_CODE : Nat := 1

/-- Well-known storage key of the processed-downward-messages count
(`well_known_keys::PROCESSED_DOWNWARD_MESSAGES`). -/
def PROCESSED_DOWNWARD_MESSAGES : Nat := 2

/-- A post-execution state snapshot: an association list from well-known
storage key to raw stored bytes (`sp_io::storage::get` under
`inspect_state`). -/
abbrev StorageState : Type := List (Nat × Bytes)

/-- `Vec::<UpwardMessage>::decode` on a raw storage value: parses the
length-prefixed list, ignoring trailing bytes; `none` models a decode error. -/
def decodeUpwardMessages (v : Bytes) : Option (List Bytes) :=
  match decodeListBytesCons v with
  | some (msgs, _) => some msgs
  | none => none

/-- `u32::decode` on a raw storage value: reads four little-endian bytes;
fewer than four bytes is a decode error. -/
def decodeU32 : Bytes → Option Nat
  | b0 :: b1 :: b2 :: b3 :: _ => some (b0 + b1 * 256 + b2 * 65536 + b3 * 16777216)
  | _ => none

/-- The block returned by the proposer, after `block.deconstruct()`:
header and extrinsics. -/
structure ProposedBlock where
  header : Header
  extrinsics : List Bytes
deriving DecidableEq, Repr

/-- The proposer's output (`sp_consensus::Proposal`): the block, opaque
storage changes, and the optional execution proof (requested with
`RecordProof::Yes`, but the proposer may still fail to return one). -/
structure Proposal where
  block : ProposedBlock
  storage_changes : Nat
  proof : Option (List Bytes)
deriving DecidableEq, Repr

/-- The import request built by `produce_candidate`
(`sp_consensus::BlockImportParams`): origin `Own`, the header, the body,
the fork-choice directive `Custom(false)` and the storage changes. -/
structure BlockImportParams where
  origin : BlockOrigin
  header : Header
  body : Option (List Bytes)
  fork_choice : Option ForkChoiceStrategy
  storage_changes : Option Nat
deriving DecidableEq, Repr

/-- The collation handed back to the caller
(`polkadot_node_primitives::Collation`); `proof_of_validity` is the encoded
`ParachainBlockData` wrapped as a `PoV`, kept as raw bytes here. -/
structure Collation where
  upward_messages : List Bytes
  new_validation_code : Option Bytes
  head_data : Bytes
  proof_of_validity : Bytes
  processed_downward_messages : Nat
  horizontal_messages : List Bytes
  hrmp_watermark : Nat
deriving DecidableEq, Repr

/-- The external collaborators of the collator, one field per interface the
source consumes: block-status query, inherent-data providers, downward-message
retrieval, proposer factory and proposer, block importer, state backend, and
hashing (headers and proof-of-validity payloads). -/
structure CollatorEnv where
  blockStatus : Hash → Except Unit BlockStatus
  createInherentData : Option InherentData
  retrieveDmqContents : PHash → Option (List Bytes)
  initProposer : Header → Except Unit Unit
  propose : Header → InherentData → Except Unit Proposal
  importBlock : BlockImportParams → Except Unit Unit
  stateAt : Hash → Except Unit StorageState
  hashHeader : Header → Hash
  hashPoV : Bytes → Nat

/-- The observable outcome of one `produce_candidate` run: the returned
collation, every import request submitted to the block importer, the hashes
of the blocks the importer accepted, and the (block hash, PoV hash) pairs
handed to the announcement coordinator. -/
structure RunResult where
  collation : Option Collation
  importAttempts : List BlockImportParams
  imported : List Hash
  announced : List (Hash × Nat)
deriving DecidableEq, Repr

/-- Run outcome of a request that aborted before reaching the importer. -/
def RunResult.empty : RunResult :=
  ⟨none, [], [], []⟩

/-- Local chain state after a run: the previously imported blocks plus the
blocks this run successfully imported (import is never rolled back). -/
def localChainState (s0 : List Hash) (r : RunResult) : List Hash :=
  s0 ++ r.imported

/-- `Collator::check_block_status`: classifies the local status of the given
block hash; only `InChainWithState` is good to build on, every other status
and a failed status query yield `false`. -/
def check_block_status (env : CollatorEnv) (hash : Hash) : Bool :=
  match env.blockStatus hash with
  | .ok .Queued => false
  | .ok .InChainWithState => true
  | .ok .InChainPruned => false
  | .ok .KnownBad => false
  | .ok .Unknown => false
  | .error _ => false

/-- `Collator::inherent_data`: creates the base inherent data, inserts the
validation-data entry, retrieves the downward messages for the relay parent
(`none` from retrieval aborts the whole assembly), and inserts the
downward-messages entry.  Each step short-circuits to `none` on failure. -/
def inherent_data (env : CollatorEnv) (validation_data : ValidationData)
    (relay_parent : PHash) : Option InherentData :=
  match env.createInherentData with
  | none => none
  | some d0 =>
      match put_data d0 VALIDATION_DATA_IDENTIFIER (encodeValidationData validation_data) with
      | none => none
      | some d1 =>
          match env.retrieveDmqContents relay_parent with
          | none => none
          | some downward_messages =>
              match put_data d1 DOWNWARD_MESSAGES_IDENTIFIER
                  (encodeDownwardMessages downward_messages) with
              | none => none
              | some d2 => some d2

/-- The first `match` inside `build_collation`'s `inspect_state` closure:
absent upward-messages key yields the empty list, an undecodable value
aborts (`return None` in the source). -/
def upward_messages_entry (state : StorageState) : Option (List Bytes) :=
  match (state.lookup UPWARD_MESSAGES).map decodeUpwardMessages with
  | some (some msgs) => some msgs
  | some none => none
  | none => some []

/-- The second `match` inside `build_collation`'s `inspect_state` closure:
absent processed-downward-messages key yields zero, an undecodable value
aborts. -/
def processed_downward_entry (state : StorageState) : Option Nat :=
  match (state.lookup PROCESSED_DOWNWARD_MESSAGES).map decodeU32 with
  | some (some cnt) => some cnt
  | some none => none
  | none => some 0

/-- `Collator::build_collation`: encodes the block data and head data, reads
the post-execution state of the freshly built block, and extracts upward
messages, new validation code and the processed-downward-messages count.
Horizontal messages are always empty and the watermark is the caller-supplied
relay block number. -/
def build_collation (env : CollatorEnv) (block : ParachainBlockData) (block_hash : Hash)
    (relay_block_number : Nat) : Option Collation :=
  match env.stateAt block_hash with
  | .error _ => none
  | .ok state =>
      match upward_messages_entry state with
      | none => none
      | some upward_messages =>
          match processed_downward_entry state with
          | none => none
          | some processed_downward_messages =>
              some ⟨upward_messages,
                    state.lookup NEW_VALIDATION_CODE,
                    encodeHeader block.header,
                    encodeParachainBlockData block,
                    processed_downward_messages,
                    [],
                    relay_block_number⟩

/-- The import request `produce_candidate` builds for the freshly proposed
block: origin `Own`, the produced header, the extrinsics as body, fork choice
fixed to `Custom(false)` and the proposer's storage changes. -/
def importParamsOf (prop : Proposal) : BlockImportParams :=
  ⟨.Own, prop.block.header, some prop.block.extrinsics, some (.Custom false),
   some prop.storage_changes⟩

/-- `Collator::produce_candidate`: decode the parent head, gate on
`check_block_status`, initialize the proposer, assemble the inherent data,
propose, require the execution proof, import the block, and build the
collation; on success the (block hash, PoV hash) pair is handed to the
announcement coordinator.  The returned `RunResult` also records the import
attempts, the successfully imported hashes and the announcement submissions. -/
def produce_candidate (env : CollatorEnv) (relay_parent : PHash)
    (validation_data : ValidationData) : RunResult :=
  match decodeHeader validation_data.persisted.parent_head with
  | none => RunResult.empty
  | some last_head =>
      if check_block_status env (env.hashHeader last_head) then
        match env.initProposer last_head with
        | .error _ => RunResult.empty
        | .ok _ =>
            match inherent_data env validation_data relay_parent with
            | none => RunResult.empty
            | some inh =>
                match env.propose last_head inh with
                | .error _ => RunResult.empty
                | .ok prop =>
                    match prop.proof with
                    | none => RunResult.empty
                    | some proof =>
                        match env.importBlock (importParamsOf prop) with
                        | .error _ => ⟨none, [importParamsOf prop], [], []⟩
                        | .ok _ =>
                            match build_collation env
                                ⟨prop.block.header, prop.block.extrinsics, proof⟩
                                (env.hashHeader prop.block.header)
                                validation_data.persisted.block_number with
                            | none =>
                                ⟨none, [importParamsOf prop],
                                 [env.hashHeader prop.block.header], []⟩
                            | some collation =>
                                ⟨some collation, [importParamsOf prop],
                                 [env.hashHeader prop.block.header],
                                 [(env.hashHeader prop.block.header,
                                   env.hashPoV collation.proof_of_validity)]⟩
      else RunResult.empty

/-- A concrete validation input: the parent head encodes the header `⟨0, 0⟩`
and the relay-relative block number is `7`. -/
def vd0 : ValidationData := ⟨⟨encodeHeader ⟨0, 0⟩, 7⟩⟩

/-- A concrete proposer output used by the witness environments. -/
def okProp : Proposal := ⟨⟨⟨5, 1⟩, [[1]]⟩, 3, some [[2]]⟩

/-- The parachain block data assembled from `okProp`. -/
def okBlock : ParachainBlockData := ⟨⟨5, 1⟩, [[1]], [[2]]⟩

/-- A fully successful environment: every collaborator succeeds, the parent
status is `InChainWithState`, the downward-message queue is present and
empty, and the post-execution state holds no well-known entries. -/
def okEnv : CollatorEnv :=
  ⟨fun _ => .ok .InChainWithState,
   some [],
   fun _ => some [],
   fun _ => .ok (),
   fun _ _ => .ok okProp,
   fun _ => .ok (),
   fun _ => .ok [],
   fun h => h.number + 100,
   fun _ => 9⟩

/-- The collation `produce_candidate` yields under `okEnv` and `vd0`. -/
def okCollation : Collation :=
  ⟨[], none, encodeHeader ⟨5, 1⟩, encodeParachainBlockData okBlock, 0, [], 7⟩

/-- Sanity evaluation: the fully successful concrete run returns the
expected collation, one import attempt, one imported block and one
announcement submission. -/
theorem produce_candidate_okEnv_eval :
    produce_candidate okEnv 0 vd0 =
      ⟨some okCollation, [importParamsOf okProp], [101], [(101, 9)]⟩ := by
  decide

/-- C2: `check_block_status` returns `true` if and only if the chain-status
query returns `InChainWithState`; each of `Queued`, `InChainPruned`,
`KnownBad`, `Unknown` and a failed status query therefore yields `false`.
Never panicking or throwing holds by construction: the function is total and
always returns a boolean. -/
theorem claim_check_block_status_iff (env : CollatorEnv) (h : Hash) :
    check_block_status env h = true ↔ env.blockStatus h = .ok .InChainWithState := by
  unfold check_block_status
  cases hq : env.blockStatus h with
  | error e => simp
  | ok s => cases s <;> simp

/-- Helper: whatever `build_collation` returns carries the encoded header of
its block argument as head data, the encoded block as proof of validity, the
caller-supplied relay block number as watermark, and empty horizontal
messages. -/
theorem build_collation_some_shape (env : CollatorEnv) (b : ParachainBlockData)
    (bh n : Nat) (c : Collation) (h : build_collation env b bh n = some c) :
    c.head_data = encodeHeader b.header ∧
      c.proof_of_validity = encodeParachainBlockData b ∧
      c.hrmp_watermark = n ∧ c.horizontal_messages = [] := by
  unfold build_collation at h
  split at h
  · cases h
  · split at h
    · cases h
    · split at h
      · cases h
      · injection h with h
        subst h
        exact ⟨rfl, rfl, rfl, rfl⟩

/-- Helper: a successful `produce_candidate` run got its collation from
`build_collation`, applied to some parachain block data at that block's hash
and at the validation data's relay block number. -/
theorem produce_candidate_some_build (env : CollatorEnv) (rp : PHash)
    (vd : ValidationData) (c : Collation)
    (h : (produce_candidate env rp vd).collation = some c) :
    ∃ b, build_collation env b (env.hashHeader b.header) vd.persisted.block_number = some c := by
  unfold produce_candidate at h
  split at h
  · cases h
  · split at h
    · split at h
      · cases h
      · split at h
        · cases h
        · split at h
          · cases h
          · split at h
            · cases h
            · split at h
              · cases h
              · split at h
                · cases h
                · rename_i x3 prop hp x2 prf hprf x1 a hi x0 collation heq
                  injection h with h
                  subst h
                  exact ⟨⟨prop.block.header, prop.block.extrinsics, prf⟩, heq⟩
    · cases h

/-- C1: whenever `produce_candidate` succeeds for a validation input whose
parent head decodes and whose hash has local block status `InChainWithState`,
the returned collation's watermark equals the input's relay-relative block
number `validation_data.persisted.block_number`. -/
theorem claim_watermark_eq_relay_block_number
    (env : CollatorEnv) (rp : PHash) (vd : ValidationData) (h : Header) (c : Collation)
    (hdec : decodeHeader vd.persisted.parent_head = some h)
    (hst : env.blockStatus (env.hashHeader h) = .ok .InChainWithState)
    (hres : (produce_candidate env rp vd).collation = some c) :
    c.hrmp_watermark = vd.persisted.block_number := by
  obtain ⟨b, hb⟩ := produce_candidate_some_build env rp vd c hres
  exact (build_collation_some_shape env b _ _ c hb).2.2.1

/-- C1 witness: the fully successful concrete run yields a collation whose
watermark is the input's relay block number. -/
theorem claim_watermark_eq_relay_block_number_witness :
    okCollation.hrmp_watermark = vd0.persisted.block_number :=
  claim_watermark_eq_relay_block_number okEnv 0 vd0 ⟨0, 0⟩ okCollation rfl rfl (by decide)

/-- C3: for every parent head whose hash has status `Queued`,
`InChainPruned`, `KnownBad` or `Unknown`, `produce_candidate` returns no
collation and never calls the block importer. -/
theorem claim_gate_rejects_without_import
    (env : CollatorEnv) (rp : PHash) (vd : ValidationData) (h : Header) (s : BlockStatus)
    (hdec : decodeHeader vd.persisted.parent_head = some h)
    (hst : env.blockStatus (env.hashHeader h) = .ok s)
    (hs : s = .Queued ∨ s = .InChainPruned ∨ s = .KnownBad ∨ s = .Unknown) :
    (produce_candidate env rp vd).collation = none ∧
      (produce_candidate env rp vd).importAttempts = [] := by
  have hfalse : check_block_status env (env.hashHeader h) = false := by
    unfold check_block_status
    rw [hst]
    rcases hs with rfl | rfl | rfl | rfl <;> rfl
  have hrun : produce_candidate env rp vd = RunResult.empty := by
    simp [produce_candidate, hdec, hfalse]
  rw [hrun]
  exact ⟨rfl, rfl⟩

/-- Environment whose status query answers `Queued` for every hash. -/
def queuedEnv : CollatorEnv :=
  { okEnv with blockStatus := fun _ => .ok .Queued }

/-- C3 witness: under a `Queued` parent status the concrete run returns no
collation and records no import attempt. -/
theorem claim_gate_rejects_without_import_witness :
    (produce_candidate queuedEnv 0 vd0).collation = none ∧
      (produce_candidate queuedEnv 0 vd0).importAttempts = [] :=
  claim_gate_rejects_without_import queuedEnv 0 vd0 ⟨0, 0⟩ .Queued rfl rfl (Or.inl rfl)

/-- C4: if downward-message retrieval returns nothing for the relay parent,
inherent assembly returns no bundle and `produce_candidate` returns no
collation without calling the block importer; a retrieval returning `some []`
is distinct and, with the other assembly steps succeeding, does not abort
assembly. -/
theorem claim_dmq_retrieval_failure_aborts
    (env : CollatorEnv) (rp : PHash) (vd : ValidationData) :
    (env.retrieveDmqContents rp = none →
       inherent_data env vd rp = none ∧
         (produce_candidate env rp vd).collation = none ∧
         (produce_candidate env rp vd).importAttempts = []) ∧
    (∀ base, env.retrieveDmqContents rp = some [] →
       env.createInherentData = some base →
       base.lookup VALIDATION_DATA_IDENTIFIER = none →
       base.lookup DOWNWARD_MESSAGES_IDENTIFIER = none →
       ∃ d, inherent_data env vd rp = some d) := by
  constructor
  · intro hr
    have hinh : inherent_data env vd rp = none := by
      unfold inherent_data
      split
      · rfl
      · split
        · rfl
        · rw [hr]
    have hrun : produce_candidate env rp vd = RunResult.empty := by
      unfold produce_candidate
      split
      · rfl
      · split
        · split
          · rfl
          · rw [hinh]
        · rfl
    exact ⟨hinh, by rw [hrun]; exact rfl, by rw [hrun]; exact rfl⟩
  · intro base hr hbase hv hd
    have h1 : put_data base VALIDATION_DATA_IDENTIFIER (encodeValidationData vd) =
        some ((VALIDATION_DATA_IDENTIFIER, encodeValidationData vd) :: base) := by
      unfold put_data
      rw [hv]
    have h2 : put_data ((VALIDATION_DATA_IDENTIFIER, encodeValidationData vd) :: base)
        DOWNWARD_MESSAGES_IDENTIFIER (encodeDownwardMessages []) =
        some ((DOWNWARD_MESSAGES_IDENTIFIER, encodeDownwardMessages []) ::
              (VALIDATION_DATA_IDENTIFIER, encodeValidationData vd) :: base) := by
      have hne : (DOWNWARD_MESSAGES_IDENTIFIER == VALIDATION_DATA_IDENTIFIER) = false := by
        decide
      have hlk : (((VALIDATION_DATA_IDENTIFIER, encodeValidationData vd) ::
          base).lookup DOWNWARD_MESSAGES_IDENTIFIER) = none := by
        simp only [List.lookup, hne]
        exact hd
      unfold put_data
      rw [hlk]
    refine ⟨(DOWNWARD_MESSAGES_IDENTIFIER, encodeDownwardMessages []) ::
            (VALIDATION_DATA_IDENTIFIER, encodeValidationData vd) :: base, ?_⟩
    simp only [inherent_data, hbase, h1, hr, h2]

/-- Environment whose downward-message retrieval fails. -/
def noDmqEnv : CollatorEnv :=
  { okEnv with retrieveDmqContents := fun _ => none }

/-- C4 witness: with failed retrieval the concrete run aborts assembly and
imports nothing; with an empty-but-present message list assembly succeeds. -/
theorem claim_dmq_retrieval_failure_aborts_witness :
    (inherent_data noDmqEnv vd0 0 = none ∧
       (produce_candidate noDmqEnv 0 vd0).collation = none ∧
       (produce_candidate noDmqEnv 0 vd0).importAttempts = []) ∧
    (∃ d, inherent_data okEnv vd0 0 = some d) :=
  ⟨(claim_dmq_retrieval_failure_aborts noDmqEnv 0 vd0).1 rfl,
   (claim_dmq_retrieval_failure_aborts okEnv 0 vd0).2 [] rfl rfl rfl rfl⟩

/-- C5: if the proposer completes successfully but returns no execution proof
even though one was requested, `produce_candidate` returns no collation and
the block importer is never called. -/
theorem claim_missing_proof_aborts
    (env : CollatorEnv) (rp : PHash) (vd : ValidationData) (h : Header)
    (inh : InherentData) (prop : Proposal)
    (hdec : decodeHeader vd.persisted.parent_head = some h)
    (hgate : check_block_status env (env.hashHeader h) = true)
    (hinit : env.initProposer h = .ok ())
    (hinh : inherent_data env vd rp = some inh)
    (hprop : env.propose h inh = .ok prop)
    (hproof : prop.proof = none) :
    (produce_candidate env rp vd).collation = none ∧
      (produce_candidate env rp vd).importAttempts = [] := by
  have hrun : produce_candidate env rp vd = RunResult.empty := by
    simp [produce_candidate, hdec, hgate, hinit, hinh, hprop, hproof]
  rw [hrun]
  exact ⟨rfl, rfl⟩

/-- A proposer output without the requested execution proof. -/
def noProofProp : Proposal := ⟨⟨⟨5, 1⟩, [[1]]⟩, 3, none⟩

/-- Environment whose proposer completes without the requested proof. -/
def noProofEnv : CollatorEnv :=
  { okEnv with propose := fun _ _ => .ok noProofProp }

/-- The inherent data assembled by the successful concrete environments. -/
def inh0 : InherentData :=
  [(DOWNWARD_MESSAGES_IDENTIFIER, encodeDownwardMessages []),
   (VALIDATION_DATA_IDENTIFIER, encodeValidationData vd0)]

/-- C5 witness: the concrete run with a proofless proposer returns no
collation and records no import attempt. -/
theorem claim_missing_proof_aborts_witness :
    (produce_candidate noProofEnv 0 vd0).collation = none ∧
      (produce_candidate noProofEnv 0 vd0).importAttempts = [] :=
  claim_missing_proof_aborts noProofEnv 0 vd0 ⟨0, 0⟩ inh0 noProofProp rfl rfl rfl rfl rfl rfl

/-- A post-execution state whose processed-downward-messages entry is a
single byte, hence undecodable as a `u32`, and with no upward-messages
entry. -/
def pdmGarbageState : StorageState := [(PROCESSED_DOWNWARD_MESSAGES, [5])]

/-- Environment whose post-execution state is `pdmGarbageState`. -/
def pdmGarbageEnv : CollatorEnv :=
  { okEnv with stateAt := fun _ => .ok pdmGarbageState }

/-- C6 counterexample: a post-execution state with no upward-messages entry
on which extraction nevertheless fails (its processed-downward-messages
entry does not decode), refuting "absent upward key implies extraction
succeeds" as stated. -/
theorem claim_upward_absent_counterexample :
    pdmGarbageEnv.stateAt 101 = .ok pdmGarbageState ∧
      pdmGarbageState.lookup UPWARD_MESSAGES = none ∧
      build_collation pdmGarbageEnv okBlock 101 7 = none :=
  ⟨rfl, by decide, by decide⟩

/-- C6 (amended): with no value under the upward-messages key, extraction
treats the upward list as empty and succeeds provided the remaining decoded
field (the processed-downward-messages entry) is absent or decodable; a
present but undecodable upward-messages value aborts extraction. -/
theorem claim_upward_absent_amended
    (env : CollatorEnv) (b : ParachainBlockData) (bh n : Nat) (st : StorageState)
    (hst : env.stateAt bh = .ok st) :
    (st.lookup UPWARD_MESSAGES = none →
       (processed_downward_entry st).isSome = true →
       ∃ c, build_collation env b bh n = some c ∧ c.upward_messages = []) ∧
    (∀ v, st.lookup UPWARD_MESSAGES = some v → decodeUpwardMessages v = none →
       build_collation env b bh n = none) := by
  constructor
  · intro hup hpd
    obtain ⟨cnt, hcnt⟩ := Option.isSome_iff_exists.mp hpd
    have hupe : upward_messages_entry st = some [] := by
      unfold upward_messages_entry
      rw [hup]
      rfl
    refine ⟨⟨[], st.lookup NEW_VALIDATION_CODE, encodeHeader b.header,
             encodeParachainBlockData b, cnt, [], n⟩, ?_, rfl⟩
    simp only [build_collation, hst, hupe, hcnt]
  · intro v hv hdecv
    have hupe : upward_messages_entry st = none := by
      unfold upward_messages_entry
      rw [hv]
      simp [hdecv]
    simp only [build_collation, hst, hupe]

/-- A post-execution state whose upward-messages entry does not decode. -/
def badUpwardState : StorageState := [(UPWARD_MESSAGES, [5])]

/-- Environment whose post-execution state is `badUpwardState`. -/
def badUpwardEnv : CollatorEnv :=
  { okEnv with stateAt := fun _ => .ok badUpwardState }

/-- C6 amended witness: with the empty state extraction succeeds with empty
upward messages; with an undecodable upward entry it aborts. -/
theorem claim_upward_absent_amended_witness :
    (∃ c, build_collation okEnv okBlock 101 7 = some c ∧ c.upward_messages = []) ∧
      build_collation badUpwardEnv okBlock 101 7 = none :=
  ⟨(claim_upward_absent_amended okEnv okBlock 101 7 [] rfl).1 rfl rfl,
   (claim_upward_absent_amended badUpwardEnv okBlock 101 7 badUpwardState rfl).2 [5] rfl rfl⟩

/-- C7: with no value under the processed-downward-messages key, any
candidate extraction produces carries a zero processed-downward count; a
present but undecodable value aborts extraction. -/
theorem claim_processed_downward_defaults
    (env : CollatorEnv) (b : ParachainBlockData) (bh n : Nat) (st : StorageState)
    (hst : env.stateAt bh = .ok st) :
    (st.lookup PROCESSED_DOWNWARD_MESSAGES = none →
       ∀ c, build_collation env b bh n = some c → c.processed_downward_messages = 0) ∧
    (∀ v, st.lookup PROCESSED_DOWNWARD_MESSAGES = some v → decodeU32 v = none →
       build_collation env b bh n = none) := by
  constructor
  · intro hpd c hc
    have hpde : processed_downward_entry st = some 0 := by
      unfold processed_downward_entry
      rw [hpd]
      rfl
    simp only [build_collation, hst, hpde] at hc
    split at hc
    · cases hc
    · injection hc with hc
      subst hc
      rfl
  · intro v hv hdv
    have hpde : processed_downward_entry st = none := by
      unfold processed_downward_entry
      rw [hv]
      simp [hdv]
    simp only [build_collation, hst, hpde]
    split <;> rfl

/-- C7 witness: the empty concrete state yields a zero count, and the
undecodable concrete entry aborts extraction. -/
theorem claim_processed_downward_defaults_witness :
    okCollation.processed_downward_messages = 0 ∧
      build_collation pdmGarbageEnv okBlock 101 7 = none :=
  ⟨(claim_processed_downward_defaults okEnv okBlock 101 7 [] rfl).1 rfl okCollation (by decide),
   (claim_processed_downward_defaults pdmGarbageEnv okBlock 101 7 pdmGarbageState rfl).2
     [5] rfl rfl⟩

/-- C8: extraction is a pure read of the post-execution state snapshot: two
runs of `build_collation` over environments that agree on the snapshot at
the block's hash (in particular two runs over the same environment) yield
identical outputs. -/
theorem claim_extraction_idempotent
    (env env2 : CollatorEnv) (b : ParachainBlockData) (bh n : Nat)
    (hst : env.stateAt bh = env2.stateAt bh) :
    build_collation env b bh n = build_collation env2 b bh n := by
  unfold build_collation
  rw [hst]

/-- Environment differing from `okEnv` everywhere except in the state
snapshot it serves. -/
def altEnv : CollatorEnv :=
  ⟨fun _ => .ok .Unknown,
   none,
   fun _ => none,
   fun _ => .error (),
   fun _ _ => .error (),
   fun _ => .error (),
   fun _ => .ok [],
   fun h => h.number,
   fun _ => 0⟩

/-- C8 witness: two different environments serving the same snapshot extract
the same collation. -/
theorem claim_extraction_idempotent_witness :
    build_collation okEnv okBlock 101 7 = build_collation altEnv okBlock 101 7 :=
  claim_extraction_idempotent okEnv altEnv okBlock 101 7 rfl

/-- C9: if the block import succeeded and extraction then fails,
`produce_candidate` returns no collation but the imported block stays in
local chain state (no rollback). -/
theorem claim_extraction_failure_keeps_import
    (env : CollatorEnv) (rp : PHash) (vd : ValidationData) (h : Header)
    (inh : InherentData) (prop : Proposal) (prf : List Bytes)
    (hdec : decodeHeader vd.persisted.parent_head = some h)
    (hgate : check_block_status env (env.hashHeader h) = true)
    (hinit : env.initProposer h = .ok ())
    (hinh : inherent_data env vd rp = some inh)
    (hprop : env.propose h inh = .ok prop)
    (hproof : prop.proof = some prf)
    (himp : env.importBlock (importParamsOf prop) = .ok ())
    (hext : build_collation env ⟨prop.block.header, prop.block.extrinsics, prf⟩
        (env.hashHeader prop.block.header) vd.persisted.block_number = none) :
    (produce_candidate env rp vd).collation = none ∧
      (produce_candidate env rp vd).imported = [env.hashHeader prop.block.header] ∧
      ∀ s0, env.hashHeader prop.block.header ∈
        localChainState s0 (produce_candidate env rp vd) := by
  have hrun : produce_candidate env rp vd =
      ⟨none, [importParamsOf prop], [env.hashHeader prop.block.header], []⟩ := by
    simp [produce_candidate, hdec, hgate, hinit, hinh, hprop, hproof, himp, hext]
  rw [hrun]
  refine ⟨rfl, rfl, fun s0 => ?_⟩
  simp [localChainState]

/-- Environment whose state backend fails for every hash, so extraction
fails after a successful import. -/
def stateFailEnv : CollatorEnv :=
  { okEnv with stateAt := fun _ => .error () }

/-- C9 witness: in the concrete run with a failing state backend no
collation is returned, yet the imported block hash is in local chain state. -/
theorem claim_extraction_failure_keeps_import_witness :
    (produce_candidate stateFailEnv 0 vd0).collation = none ∧
      101 ∈ localChainState [] (produce_candidate stateFailEnv 0 vd0) := by
  have h := claim_extraction_failure_keeps_import stateFailEnv 0 vd0 ⟨0, 0⟩ inh0 okProp
    [[2]] rfl rfl rfl rfl rfl rfl rfl rfl
  exact ⟨h.1, h.2.2 []⟩

/-- C10: every collation `produce_candidate` returns is internally
consistent: decoding its proof-of-validity block data yields a parachain
block whose header encodes exactly to the returned head data. -/
theorem claim_pov_head_data_consistent
    (env : CollatorEnv) (rp : PHash) (vd : ValidationData) (c : Collation)
    (hres : (produce_candidate env rp vd).collation = some c) :
    ∃ b, decodeParachainBlockData c.proof_of_validity = some b ∧
      encodeHeader b.header = c.head_data := by
  obtain ⟨b, hb⟩ := produce_candidate_some_build env rp vd c hres
  obtain ⟨hhead, hpov, _, _⟩ := build_collation_some_shape env b _ _ c hb
  refine ⟨b, ?_, hhead.symm⟩
  rw [hpov, decodeParachainBlockData_encode]

/-- C10 witness: the concrete successful run's collation decodes back to a
block whose header matches the head data. -/
theorem claim_pov_head_data_consistent_witness :
    ∃ b, decodeParachainBlockData okCollation.proof_of_validity = some b ∧
      encodeHeader b.header = okCollation.head_data :=
  claim_pov_head_data_consistent okEnv 0 vd0 okCollation (by decide)

end Cumulus
